import Mathlib

/-!
Formalization of the workload report analysis and comparison engine of
`pg_tuner_mcp` (`src/pg_tuner_mcp/tools/workload.py` together with the
record types of `src/pg_tuner_mcp/models/schemas.py`).

Modelling conventions:
* Python floats are modelled as rationals (ℚ), Python ints as ℤ.
* A raw JSON report mapping is modelled by `RawReport`: each field the code
  reads with `.get` becomes an `Option`; `.get(k, default)` becomes `getD`.
* A sample of the embedded `"timeline"` list is modelled by its only field
  the code reads, the optional `p99_latency_ms` value (`Option ℚ`).
* The filesystem is modelled as a map from path to `FileContent`
  (missing file, file with invalid JSON, or file parsed to a `RawReport`);
  raising `ToolError` is modelled by `Except String`.
* Python string formatting `f"{x:.df}"` is modelled by `fmtFixed d`
  (fixed-point, round half to even, like CPython's float formatting).
-/

namespace PgTuner

/-- `WorkloadResult` of `models/schemas.py`: the canonical metrics record. -/
structure WorkloadResult where
  mode : String
  duration_seconds : ℚ
  total_transactions : ℤ
  tps : ℚ
  avg_latency_ms : ℚ
  p50_latency_ms : ℚ
  p95_latency_ms : ℚ
  p99_latency_ms : ℚ
  errors : ℤ
deriving DecidableEq

/-- `RecommendationResult` of `models/schemas.py`. -/
structure RecommendationResult where
  category : String
  parameter : String
  current_value : String
  suggested_value : String
  confidence : String
  restart_required : Bool
  evidence : List String
  impact : String
  risk : String
deriving DecidableEq

/-- The numeric fields `parse_workload_report` reads from its field source
mapping; `none` models an absent key. -/
structure RawFields where
  actual_duration_seconds : Option ℚ
  total_transactions : Option ℤ
  tps : Option ℚ
  avg_latency_ms : Option ℚ
  p50_latency_ms : Option ℚ
  p95_latency_ms : Option ℚ
  p99_latency_ms : Option ℚ
  errors : Option ℤ
deriving DecidableEq

/-- A raw decoded JSON report mapping, restricted to the keys the engine
reads: the optional top-level `"mode"` string, the optional nested
`"summary"` mapping, the same numeric field names at top level, and the
optional embedded `"timeline"` list (each sample reduced to its optional
`p99_latency_ms` entry). -/
structure RawReport where
  mode : Option String
  summary : Option RawFields
  top : RawFields
  timeline : Option (List (Option ℚ))
deriving DecidableEq

/-- A `RawFields` with every key absent. -/
def noFields : RawFields :=
  { actual_duration_seconds := none, total_transactions := none, tps := none,
    avg_latency_ms := none, p50_latency_ms := none, p95_latency_ms := none,
    p99_latency_ms := none, errors := none }

/-- `parse_workload_report` (workload.py lines 56-71): pick `"summary"` as
the field source when present, the top-level mapping otherwise; every
numeric field defaults to `0`; `mode` is read from the top level and
defaults to `"burst"`. -/
def parse_workload_report (data : RawReport) : WorkloadResult :=
  let summary := data.summary.getD data.top
  { mode := data.mode.getD "burst"
    duration_seconds := summary.actual_duration_seconds.getD 0
    total_transactions := summary.total_transactions.getD 0
    tps := summary.tps.getD 0
    avg_latency_ms := summary.avg_latency_ms.getD 0
    p50_latency_ms := summary.p50_latency_ms.getD 0
    p95_latency_ms := summary.p95_latency_ms.getD 0
    p99_latency_ms := summary.p99_latency_ms.getD 0
    errors := summary.errors.getD 0 }

/-- Round a rational to the nearest integer, ties to even (the rounding of
CPython's fixed-point float formatting). -/
def rhe (q : ℚ) : ℤ :=
  let f := ⌊q⌋
  let r := q - f
  if r < 1/2 then f
  else if 1/2 < r then f + 1
  else if f % 2 = 0 then f else f + 1

/-- Left-pad a digit string with zeros to length `d`. -/
def padZeros (d : ℕ) (s : String) : String :=
  String.mk (List.replicate (d - s.length) '0') ++ s

/-- Model of Python fixed-point formatting with `d` decimals. -/
def fmtFixed (d : ℕ) (q : ℚ) : String :=
  let n := rhe (q * (10 : ℚ) ^ d)
  let sign := if n < 0 then "-" else ""
  let m := n.natAbs
  if d = 0 then sign ++ toString m
  else sign ++ toString (m / 10 ^ d) ++ "." ++ padZeros d (toString (m % 10 ^ d))

/-- Evidence string of the high-tail-latency rule (workload.py line 157). -/
def p99Evidence (p99 : ℚ) : String :=
  "P99 latency " ++ fmtFixed 1 p99 ++ "ms > 100ms threshold"

/-- The recommendation emitted by the high-tail-latency rule
(workload.py lines 150-160). -/
def workMemRec (p99 : ℚ) : RecommendationResult :=
  { category := "performance"
    parameter := "work_mem"
    current_value := "4MB"
    suggested_value := "64MB"
    confidence := "medium"
    restart_required := false
    evidence := [p99Evidence p99]
    impact := "May reduce sort/hash spills to disk"
    risk := "Increases per-connection memory usage" }

/-- `errors / max(total_transactions, 1) * 100` (workload.py line 164). -/
def errorRate (errors total : ℤ) : ℚ :=
  (errors : ℚ) / ((max total 1 : ℤ) : ℚ) * 100

/-- Evidence string of the elevated-error-rate rule (workload.py line 174). -/
def errEvidence (rate : ℚ) : String :=
  "Error rate " ++ fmtFixed 2 rate ++ "% may indicate connection exhaustion"

/-- The recommendation emitted by the elevated-error-rate rule
(workload.py lines 167-177). -/
def maxConnectionsRec (rate : ℚ) : RecommendationResult :=
  { category := "connections"
    parameter := "max_connections"
    current_value := "100"
    suggested_value := "200"
    confidence := "low"
    restart_required := true
    evidence := [errEvidence rate]
    impact := "Allows more concurrent connections"
    risk := "Increases memory overhead per connection" }

/-- `BurstReportAnalysis` of `models/schemas.py` (the `workload` field is
always populated by the implementation, so it is not optional here). -/
structure BurstReportAnalysis where
  status : String
  report_path : String
  workload : WorkloadResult
  recommendations : List RecommendationResult
  summary : String
deriving DecidableEq

/-- The pure core of `analyze_burst_report_impl` (workload.py lines
144-189), applied after the report file has been read and decoded. -/
def analyzeBurstData (report_path : String) (data : RawReport) :
    BurstReportAnalysis :=
  let workload := parse_workload_report data
  let latRecs : List RecommendationResult :=
    if 100 < workload.p99_latency_ms then [workMemRec workload.p99_latency_ms]
    else []
  let latPts : List String :=
    if 100 < workload.p99_latency_ms then
      ["High P99 latency (" ++ fmtFixed 1 workload.p99_latency_ms ++ "ms)"]
    else []
  let rate := errorRate workload.errors workload.total_transactions
  let errPts : List String :=
    if 0 < workload.errors then ["Error rate: " ++ fmtFixed 2 rate ++ "%"]
    else []
  let errRecs : List RecommendationResult :=
    if 0 < workload.errors then
      if 1 < rate then [maxConnectionsRec rate] else []
    else []
  let tpsPts : List String :=
    if 0 < workload.tps then ["Throughput: " ++ fmtFixed 0 workload.tps ++ " TPS"]
    else []
  let points := latPts ++ errPts ++ tpsPts
  { status := "success"
    report_path := report_path
    workload := workload
    recommendations := latRecs ++ errRecs
    summary := if points = [] then "Analysis complete"
               else String.intercalate "; " points }

/-- `SimulationReportAnalysis` of `models/schemas.py` (the `workload`
field is always populated by the implementation). -/
structure SimulationReportAnalysis where
  status : String
  report_path : String
  timeline_path : Option String
  workload : WorkloadResult
  timeline_points : ℤ
  recommendations : List RecommendationResult
  summary : String
deriving DecidableEq

/-- `timeline_points` (workload.py lines 234-239): `0` when no timeline
path was supplied or the file does not exist; the file's line count minus
one otherwise (`sum(1 for _ in f) - 1`). -/
def timelinePointsOf (timelineLines : Option ℕ) : ℤ :=
  match timelineLines with
  | none => 0
  | some n => (n : ℤ) - 1

/-- Python `max` over a nonempty list of rationals (`0` on `[]`, a case
the code never reaches). -/
def listMax : List ℚ → ℚ
  | [] => 0
  | x :: xs => xs.foldl max x

/-- Evidence string of the latency-spike rule (workload.py line 259). -/
def spikeEvidence (maxL avgL : ℚ) : String :=
  "Latency spikes detected: max " ++ fmtFixed 1 maxL ++ "ms vs avg " ++
    fmtFixed 1 avgL ++ "ms"

/-- The recommendation emitted by the latency-spike rule
(workload.py lines 252-262). -/
def checkpointRec (maxL avgL : ℚ) : RecommendationResult :=
  { category := "wal"
    parameter := "checkpoint_completion_target"
    current_value := "0.5"
    suggested_value := "0.9"
    confidence := "medium"
    restart_required := false
    evidence := [spikeEvidence maxL avgL]
    impact := "Spreads checkpoint I/O over longer period"
    risk := "Slightly longer recovery time after crash" }

/-- Spike detection over the embedded `"timeline"` list (workload.py
lines 242-262): extract `p99_latency_ms` from every sample that has it;
if any remain, emit the checkpoint recommendation when
`max > avg * 3`. -/
def spikeRecs (timeline : Option (List (Option ℚ))) :
    List RecommendationResult :=
  match timeline with
  | none => []
  | some td =>
    if 0 < td.length then
      let latencies := td.filterMap id
      if latencies = [] then []
      else
        let maxL := listMax latencies
        let avgL := latencies.sum / (latencies.length : ℚ)
        if avgL * 3 < maxL then [checkpointRec maxL avgL] else []
    else []

/-- Summary point `"Simulated duration: <s>s"` (workload.py line 264). -/
def durPoint (w : WorkloadResult) : String :=
  "Simulated duration: " ++ fmtFixed 0 w.duration_seconds ++ "s"

/-- Summary point `"Timeline points: <n>"` (workload.py line 266). -/
def timelinePoint (tp : ℤ) : String :=
  "Timeline points: " ++ toString tp

/-- Summary point `"Avg TPS: <tps>"` (workload.py line 267). -/
def avgTpsPoint (w : WorkloadResult) : String :=
  "Avg TPS: " ++ fmtFixed 0 w.tps

/-- Simulation summary points (workload.py lines 264-267): duration
always, `"Timeline points"` only when the count is strictly positive,
average TPS always. -/
def simSummaryPoints (w : WorkloadResult) (tp : ℤ) : List String :=
  [durPoint w] ++ (if 0 < tp then [timelinePoint tp] else []) ++ [avgTpsPoint w]

/-- The pure core of `analyze_simulation_report` (workload.py lines
229-277), applied after the report file has been read and decoded.
`timelineLines` is `some n` exactly when a timeline path was supplied and
that file exists, with `n` its line count. -/
def analyzeSimulationData (report_path : String) (timeline_path : Option String)
    (timelineLines : Option ℕ) (data : RawReport) : SimulationReportAnalysis :=
  let workload := parse_workload_report data
  let tp := timelinePointsOf timelineLines
  { status := "success"
    report_path := report_path
    timeline_path := timeline_path
    workload := workload
    timeline_points := tp
    recommendations := spikeRecs data.timeline
    summary := String.intercalate "; " (simSummaryPoints workload tp) }

/-- `ReportComparison` of `models/schemas.py`. -/
structure ReportComparison where
  status : String
  baseline_path : String
  comparison_path : String
  tps_change_pct : ℚ
  latency_change_pct : ℚ
  regressions : List String
  improvements : List String
  summary : String
deriving DecidableEq

/-- `tps_change` (workload.py lines 308-311). -/
def tpsChange (b c : WorkloadResult) : ℚ :=
  if 0 < b.tps then (c.tps - b.tps) / b.tps * 100 else 0

/-- `latency_change` (workload.py lines 313-316). -/
def latencyChange (b c : WorkloadResult) : ℚ :=
  if 0 < b.avg_latency_ms then
    (c.avg_latency_ms - b.avg_latency_ms) / b.avg_latency_ms * 100
  else 0

/-- The `regressions` list (workload.py lines 318-337): TPS drop below
-5%, latency rise above 10%, error count rise past 1.5x with a floor of
10, in that order. -/
def regressionsOf (b c : WorkloadResult) : List String :=
  (if tpsChange b c < -5 then
     ["TPS decreased by " ++ fmtFixed 1 |tpsChange b c| ++ "%"] else []) ++
  (if 10 < latencyChange b c then
     ["Latency increased by " ++ fmtFixed 1 (latencyChange b c) ++ "%"] else []) ++
  (if (b.errors : ℚ) * (3/2) < (c.errors : ℚ) ∧ 10 < c.errors then
     ["Errors increased from " ++ toString b.errors ++ " to " ++ toString c.errors]
   else [])

/-- The `improvements` list (workload.py lines 319-339): TPS rise above
5%, latency drop below -10%, error count drop past 0.5x with a floor of
10, in that order. -/
def improvementsOf (b c : WorkloadResult) : List String :=
  (if 5 < tpsChange b c then
     ["TPS increased by " ++ fmtFixed 1 (tpsChange b c) ++ "%"] else []) ++
  (if latencyChange b c < -10 then
     ["Latency decreased by " ++ fmtFixed 1 |latencyChange b c| ++ "%"] else []) ++
  (if (c.errors : ℚ) < (b.errors : ℚ) * (1/2) ∧ 10 < b.errors then
     ["Errors decreased from " ++ toString b.errors ++ " to " ++ toString c.errors]
   else [])

/-- Comparison summary precedence (workload.py lines 342-349). -/
def summaryOf (regs imps : List String) : String :=
  if regs ≠ [] ∧ imps = [] then
    "Performance regression detected: " ++ String.intercalate "; " regs
  else if imps ≠ [] ∧ regs = [] then
    "Performance improved: " ++ String.intercalate "; " imps
  else if regs ≠ [] ∧ imps ≠ [] then
    "Mixed results with both improvements and regressions"
  else "No significant performance changes detected"

/-- The pure core of `compare_reports_impl` (workload.py lines 304-360),
applied after both report files have been read and decoded. -/
def compareWorkloads (baseline_path comparison_path : String)
    (b c : WorkloadResult) : ReportComparison :=
  { status := "success"
    baseline_path := baseline_path
    comparison_path := comparison_path
    tps_change_pct := tpsChange b c
    latency_change_pct := latencyChange b c
    regressions := regressionsOf b c
    improvements := improvementsOf b c
    summary := summaryOf (regressionsOf b c) (improvementsOf b c) }

/-- What the engine can observe of a file: absent, present but not valid
JSON, or present and decoded to a raw report mapping. -/
inductive FileContent where
  | missing : FileContent
  | invalidJson : FileContent
  | json : RawReport → FileContent
deriving DecidableEq

/-- A filesystem: each path resolves to a `FileContent`. -/
def FileSystem : Type := String → FileContent

/-- `analyze_burst_report_impl` (workload.py lines 129-189): fail when the
report path does not exist, fail when its content is not valid JSON,
otherwise analyze the decoded mapping. -/
def analyze_burst_report_impl (fs : FileSystem) (report_path : String) :
    Except String BurstReportAnalysis :=
  match fs report_path with
  | .missing => .error ("Report file not found: " ++ report_path)
  | .invalidJson => .error "Invalid JSON in report file"
  | .json data => .ok (analyzeBurstData report_path data)

/-- `analyze_simulation_report` (workload.py lines 206-277): same failure
behaviour for the report path; a missing timeline file is tolerated
(`timelineLines` is `some n` exactly when the timeline path was supplied
and exists, with `n` its line count). -/
def analyze_simulation_report (fs : FileSystem) (report_path : String)
    (timeline_path : Option String) (timelineLines : Option ℕ) :
    Except String SimulationReportAnalysis :=
  match fs report_path with
  | .missing => .error ("Report file not found: " ++ report_path)
  | .invalidJson => .error "Invalid JSON in report file"
  | .json data => .ok (analyzeSimulationData report_path timeline_path timelineLines data)

/-- `compare_reports_impl` (workload.py lines 280-360): both paths must
exist (baseline checked first), then both must decode as JSON (baseline
parsed first), then the pure comparison runs on the parsed workloads. -/
def compare_reports_impl (fs : FileSystem) (baseline_path comparison_path : String) :
    Except String ReportComparison :=
  match fs baseline_path, fs comparison_path with
  | .missing, _ => .error ("Baseline report not found: " ++ baseline_path)
  | _, .missing => .error ("Comparison report not found: " ++ comparison_path)
  | .invalidJson, _ => .error "Invalid JSON in report file"
  | _, .invalidJson => .error "Invalid JSON in report file"
  | .json bd, .json cd =>
    .ok (compareWorkloads baseline_path comparison_path
          (parse_workload_report bd) (parse_workload_report cd))

/-- The latencies of the spec's spike scenario. -/
def c1Samples : List (Option ℚ) := [some 50, some 52, some 48, some 300]

/-- A simulation report whose embedded timeline holds exactly the samples
with `p99_latency_ms` values `[50, 52, 48, 300]`. -/
def c1Data : RawReport :=
  { mode := some "simulation", summary := none, top := noFields,
    timeline := some c1Samples }

/-- A simulation report whose timeline does trigger the spike rule
(mean 82.5, max 300 > 247.5). -/
def c9Data : RawReport :=
  { mode := some "simulation", summary := none, top := noFields,
    timeline := some [some 10, some 10, some 10, some 300] }

/-- A flat report with only `p99_latency_ms` present, value `q`. -/
def p99Report (q : ℚ) : RawReport :=
  { mode := none, summary := none,
    top := { noFields with p99_latency_ms := some q }, timeline := none }

/-- The spec's example nested report (§8): tps 166.67, avg latency 5ms,
p99 12ms, no errors. -/
def dEx : RawReport :=
  { mode := none
    summary := some { noFields with
      actual_duration_seconds := some 60, total_transactions := some 10000,
      tps := some (16667/100), avg_latency_ms := some 5,
      p99_latency_ms := some 12, errors := some 0 }
    top := noFields, timeline := none }

/-- A filesystem where every path resolves to the example report. -/
def fsGood : FileSystem := fun _ => .json dEx

/-- A filesystem where every path is missing. -/
def fsMissing : FileSystem := fun _ => .missing

/-- An example baseline metrics record with positive tps and latency. -/
def bEx : WorkloadResult :=
  { mode := "burst", duration_seconds := 60, total_transactions := 10000,
    tps := 16667/100, avg_latency_ms := 5, p50_latency_ms := 3,
    p95_latency_ms := 9, p99_latency_ms := 12, errors := 0 }

/-- An example candidate metrics record with higher tps, lower latency. -/
def cEx : WorkloadResult :=
  { bEx with tps := 200, avg_latency_ms := 4 }

/-! ### Helper lemmas -/

/-- Unfolding of the recommendation list produced by the burst analysis. -/
lemma analyzeBurstData_recs (path : String) (data : RawReport) :
    (analyzeBurstData path data).recommendations =
      (if 100 < (parse_workload_report data).p99_latency_ms then
        [workMemRec (parse_workload_report data).p99_latency_ms] else []) ++
      (if 0 < (parse_workload_report data).errors then
        (if 1 < errorRate (parse_workload_report data).errors
              (parse_workload_report data).total_transactions then
          [maxConnectionsRec (errorRate (parse_workload_report data).errors
              (parse_workload_report data).total_transactions)]
         else [])
       else []) := rfl

/-- The two burst rules emit recommendations with distinct categories. -/
lemma workMemRec_ne_maxConnectionsRec (p r : ℚ) :
    workMemRec p ≠ maxConnectionsRec r := by
  intro h
  have hc := congrArg RecommendationResult.category h
  simp [workMemRec, maxConnectionsRec] at hc

lemma tpsChange_self (w : WorkloadResult) : tpsChange w w = 0 := by
  unfold tpsChange
  split <;> simp

lemma latencyChange_self (w : WorkloadResult) : latencyChange w w = 0 := by
  unfold latencyChange
  split <;> simp

lemma errRegression_self (w : WorkloadResult) :
    ¬ ((w.errors : ℚ) * (3/2) < (w.errors : ℚ) ∧ 10 < w.errors) := by
  rintro ⟨h1, h2⟩
  have h2q : (10 : ℚ) < (w.errors : ℚ) := by exact_mod_cast h2
  nlinarith

lemma errImprovement_self (w : WorkloadResult) :
    ¬ ((w.errors : ℚ) < (w.errors : ℚ) * (1/2) ∧ 10 < w.errors) := by
  rintro ⟨h1, h2⟩
  have h2q : (10 : ℚ) < (w.errors : ℚ) := by exact_mod_cast h2
  nlinarith

lemma regressionsOf_self (w : WorkloadResult) : regressionsOf w w = [] := by
  have he := errRegression_self w
  norm_num [regressionsOf, tpsChange_self, latencyChange_self, he]

lemma improvementsOf_self (w : WorkloadResult) : improvementsOf w w = [] := by
  have he := errImprovement_self w
  norm_num [improvementsOf, tpsChange_self, latencyChange_self, he]

lemma summaryOf_nil :
    summaryOf [] [] = "No significant performance changes detected" := by
  norm_num [summaryOf]

/-! ### Claims -/

/-- C1 (counterexample): for the report whose embedded timeline carries the
p99 samples `[50, 52, 48, 300]`, the simulation analysis emits no
recommendation at all (so not exactly one), and the extracted maximum 300
does not exceed three times the mean `(50+52+48+300)/4 = 112.5`. -/
theorem C1_counterexample :
    (analyzeSimulationData "sim.json" none none c1Data).recommendations.length ≠ 1 ∧
    listMax (c1Samples.filterMap id) ≤ ((50 + 52 + 48 + 300 : ℚ) / 4) * 3 := by
  constructor
  · norm_num [analyzeSimulationData, spikeRecs, c1Data, c1Samples, listMax,
      List.filterMap]
  · norm_num [c1Samples, listMax, List.filterMap]

/-- C1 (amended): for the report whose embedded timeline carries the p99
samples `[50, 52, 48, 300]` (mean 112.5, max 300 ≤ 3 × 112.5 = 337.5), the
spike condition `max > mean * 3` fails and the simulation analysis returns
an empty recommendations list. -/
theorem C1_spike_rule_silent :
    (analyzeSimulationData "sim.json" none none c1Data).recommendations = [] ∧
    listMax (c1Samples.filterMap id) ≤
      ((c1Samples.filterMap id).sum / ((c1Samples.filterMap id).length : ℚ)) * 3 := by
  constructor
  · norm_num [analyzeSimulationData, spikeRecs, c1Data, c1Samples, listMax,
      List.filterMap]
  · norm_num [c1Samples, listMax, List.filterMap]

/-- C3: the Normalizer is shape-invariant — a nested report (fields under
`"summary"`, arbitrary junk at top level) normalizes to the same
`WorkloadMetrics` as the flat report carrying the same field values at top
level with the same `"mode"`; in every report (all other field values
arbitrary), each numeric field that is absent from its source mapping
defaults to `0` in both shapes, and an absent top-level `"mode"` defaults
to `"burst"` in both shapes; in particular the all-absent report
normalizes to the all-zero record with mode `"burst"` in both shapes. -/
theorem C3_normalizer_shape_invariance (m : Option String) (f junk : RawFields)
    (tlN tlF : Option (List (Option ℚ))) :
    parse_workload_report { mode := m, summary := some f, top := junk, timeline := tlN } =
      parse_workload_report { mode := m, summary := none, top := f, timeline := tlF } ∧
    (parse_workload_report ⟨m, some { f with actual_duration_seconds := none }, junk, tlN⟩).duration_seconds = 0 ∧
    (parse_workload_report ⟨m, some { f with total_transactions := none }, junk, tlN⟩).total_transactions = 0 ∧
    (parse_workload_report ⟨m, some { f with tps := none }, junk, tlN⟩).tps = 0 ∧
    (parse_workload_report ⟨m, some { f with avg_latency_ms := none }, junk, tlN⟩).avg_latency_ms = 0 ∧
    (parse_workload_report ⟨m, some { f with p50_latency_ms := none }, junk, tlN⟩).p50_latency_ms = 0 ∧
    (parse_workload_report ⟨m, some { f with p95_latency_ms := none }, junk, tlN⟩).p95_latency_ms = 0 ∧
    (parse_workload_report ⟨m, some { f with p99_latency_ms := none }, junk, tlN⟩).p99_latency_ms = 0 ∧
    (parse_workload_report ⟨m, some { f with errors := none }, junk, tlN⟩).errors = 0 ∧
    (parse_workload_report ⟨m, none, { f with actual_duration_seconds := none }, tlF⟩).duration_seconds = 0 ∧
    (parse_workload_report ⟨m, none, { f with total_transactions := none }, tlF⟩).total_transactions = 0 ∧
    (parse_workload_report ⟨m, none, { f with tps := none }, tlF⟩).tps = 0 ∧
    (parse_workload_report ⟨m, none, { f with avg_latency_ms := none }, tlF⟩).avg_latency_ms = 0 ∧
    (parse_workload_report ⟨m, none, { f with p50_latency_ms := none }, tlF⟩).p50_latency_ms = 0 ∧
    (parse_workload_report ⟨m, none, { f with p95_latency_ms := none }, tlF⟩).p95_latency_ms = 0 ∧
    (parse_workload_report ⟨m, none, { f with p99_latency_ms := none }, tlF⟩).p99_latency_ms = 0 ∧
    (parse_workload_report ⟨m, none, { f with errors := none }, tlF⟩).errors = 0 ∧
    (parse_workload_report ⟨none, some f, junk, tlN⟩).mode = "burst" ∧
    (parse_workload_report ⟨none, none, f, tlF⟩).mode = "burst" ∧
    parse_workload_report { mode := none, summary := some noFields, top := junk, timeline := tlN } =
      { mode := "burst", duration_seconds := 0, total_transactions := 0, tps := 0,
        avg_latency_ms := 0, p50_latency_ms := 0, p95_latency_ms := 0,
        p99_latency_ms := 0, errors := 0 } ∧
    parse_workload_report { mode := none, summary := none, top := noFields, timeline := tlF } =
      { mode := "burst", duration_seconds := 0, total_transactions := 0, tps := 0,
        avg_latency_ms := 0, p50_latency_ms := 0, p95_latency_ms := 0,
        p99_latency_ms := 0, errors := 0 } := by
  exact ⟨rfl, rfl, rfl, rfl, rfl, rfl, rfl, rfl, rfl, rfl, rfl, rfl, rfl, rfl,
    rfl, rfl, rfl, rfl, rfl, rfl, rfl⟩

/-- C10: with a timeline path referring to an existing file of `n` lines,
the simulation analysis reports `timeline_points = n - 1` with no lower
bound; an empty file (0 lines) yields `-1`, a negative value, and in that
case the summary point list is exactly the duration and TPS points, with
the "Timeline points" line omitted. -/
theorem C10_timeline_points (path tlp : String) (n : ℕ) (data : RawReport) :
    (analyzeSimulationData path (some tlp) (some n) data).timeline_points = (n : ℤ) - 1 ∧
    (analyzeSimulationData path (some tlp) (some 0) data).timeline_points = -1 ∧
    (analyzeSimulationData path (some tlp) (some 0) data).timeline_points < 0 ∧
    simSummaryPoints (parse_workload_report data) (-1) =
      [durPoint (parse_workload_report data), avgTpsPoint (parse_workload_report data)] ∧
    (analyzeSimulationData path (some tlp) (some 0) data).summary =
      String.intercalate "; "
        [durPoint (parse_workload_report data), avgTpsPoint (parse_workload_report data)] := by
  refine ⟨rfl, by norm_num [analyzeSimulationData, timelinePointsOf],
    by norm_num [analyzeSimulationData, timelinePointsOf], ?_, ?_⟩
  · norm_num [simSummaryPoints]
  · norm_num [analyzeSimulationData, timelinePointsOf, simSummaryPoints]

/-- Sign of the relative change `(y - x) / x * 100` for positive `x`. -/
lemma changeSign (x y : ℚ) (hx : 0 < x) :
    (0 < (y - x) / x * 100 ↔ x < y) ∧
    ((y - x) / x * 100 < 0 ↔ y < x) ∧
    ((y - x) / x * 100 = 0 ↔ y = x) := by
  have hpos : x < y → 0 < (y - x) / x * 100 := fun h =>
    mul_pos (div_pos (by linarith) hx) (by norm_num)
  have hneg : y < x → (y - x) / x * 100 < 0 := fun h =>
    mul_neg_of_neg_of_pos (div_neg_of_neg_of_pos (by linarith) hx) (by norm_num)
  have hzero : y = x → (y - x) / x * 100 = 0 := by
    intro h
    rw [h]
    simp
  refine ⟨⟨fun h => ?_, hpos⟩, ⟨fun h => ?_, hneg⟩, ⟨fun h => ?_, hzero⟩⟩
  · rcases lt_trichotomy x y with h1 | h1 | h1
    · exact h1
    · exact absurd h (by rw [hzero h1.symm]; exact lt_irrefl 0)
    · exact absurd h (not_lt.mpr (le_of_lt (hneg h1)))
  · rcases lt_trichotomy x y with h1 | h1 | h1
    · exact absurd h (not_lt.mpr (le_of_lt (hpos h1)))
    · exact absurd h (by rw [hzero h1.symm]; exact lt_irrefl 0)
    · exact h1
  · rcases lt_trichotomy x y with h1 | h1 | h1
    · exact absurd h (ne_of_gt (hpos h1))
    · exact h1.symm
    · exact absurd h (ne_of_lt (hneg h1))

/-- C2: whenever both report files decode, the comparison succeeds and its
`tps_change_pct` is `(candidate.tps - baseline.tps) / baseline.tps * 100`
when `baseline.tps > 0` and `0` otherwise, and its `latency_change_pct` is
computed identically from `avg_latency_ms`. -/
theorem C2_change_formulas (fs : FileSystem) (bp cp : String)
    (bd cd : RawReport) (hb : fs bp = .json bd) (hc : fs cp = .json cd) :
    ∃ r, compare_reports_impl fs bp cp = .ok r ∧
      r.tps_change_pct =
        (if 0 < (parse_workload_report bd).tps then
          ((parse_workload_report cd).tps - (parse_workload_report bd).tps) /
            (parse_workload_report bd).tps * 100
         else 0) ∧
      r.latency_change_pct =
        (if 0 < (parse_workload_report bd).avg_latency_ms then
          ((parse_workload_report cd).avg_latency_ms -
              (parse_workload_report bd).avg_latency_ms) /
            (parse_workload_report bd).avg_latency_ms * 100
         else 0) := by
  refine ⟨compareWorkloads bp cp (parse_workload_report bd) (parse_workload_report cd),
    ?_, rfl, rfl⟩
  unfold compare_reports_impl
  rw [hb, hc]

/-- C2 witness: both change percentages at the spec's example report
compared with itself. -/
theorem C2_change_formulas_witness :
    ∃ r, compare_reports_impl fsGood "baseline.json" "candidate.json" = .ok r ∧
      r.tps_change_pct =
        (if 0 < (parse_workload_report dEx).tps then
          ((parse_workload_report dEx).tps - (parse_workload_report dEx).tps) /
            (parse_workload_report dEx).tps * 100
         else 0) ∧
      r.latency_change_pct =
        (if 0 < (parse_workload_report dEx).avg_latency_ms then
          ((parse_workload_report dEx).avg_latency_ms -
              (parse_workload_report dEx).avg_latency_ms) /
            (parse_workload_report dEx).avg_latency_ms * 100
         else 0) :=
  C2_change_formulas fsGood "baseline.json" "candidate.json" dEx dEx rfl rfl

/-- C6: comparing a report against itself yields zero change percentages,
empty regression and improvement lists, and the no-change summary. -/
theorem C6_self_comparison (fs : FileSystem) (bp cp : String) (d : RawReport)
    (hb : fs bp = .json d) (hc : fs cp = .json d) :
    compare_reports_impl fs bp cp = .ok
      { status := "success", baseline_path := bp, comparison_path := cp,
        tps_change_pct := 0, latency_change_pct := 0, regressions := [],
        improvements := [],
        summary := "No significant performance changes detected" } := by
  unfold compare_reports_impl
  rw [hb, hc]
  simp only [compareWorkloads, tpsChange_self, latencyChange_self,
    regressionsOf_self, improvementsOf_self, summaryOf_nil]

/-- C6 witness: the spec's example report compared against itself. -/
theorem C6_self_comparison_witness :
    compare_reports_impl fsGood "baseline.json" "candidate.json" = .ok
      { status := "success", baseline_path := "baseline.json",
        comparison_path := "candidate.json", tps_change_pct := 0,
        latency_change_pct := 0, regressions := [], improvements := [],
        summary := "No significant performance changes detected" } :=
  C6_self_comparison fsGood "baseline.json" "candidate.json" dEx rfl rfl

/-- C7: swapping baseline and candidate flips the sign of `tps_change_pct`
when both tps values are strictly positive, and of `latency_change_pct`
when both average latencies are strictly positive (signs only; magnitudes
are not compared). -/
theorem C7_swap_sign_antisymmetry (b c : WorkloadResult) :
    (0 < b.tps → 0 < c.tps →
      ((0 < tpsChange b c ↔ tpsChange c b < 0) ∧
       (tpsChange b c < 0 ↔ 0 < tpsChange c b) ∧
       (tpsChange b c = 0 ↔ tpsChange c b = 0))) ∧
    (0 < b.avg_latency_ms → 0 < c.avg_latency_ms →
      ((0 < latencyChange b c ↔ latencyChange c b < 0) ∧
       (latencyChange b c < 0 ↔ 0 < latencyChange c b) ∧
       (latencyChange b c = 0 ↔ latencyChange c b = 0))) := by
  constructor
  · intro hb hc
    obtain ⟨p1, n1, z1⟩ := changeSign b.tps c.tps hb
    obtain ⟨p2, n2, z2⟩ := changeSign c.tps b.tps hc
    simp only [tpsChange, hb, hc, if_true]
    exact ⟨p1.trans n2.symm, n1.trans p2.symm,
      z1.trans (eq_comm.trans z2.symm)⟩
  · intro hb hc
    obtain ⟨p1, n1, z1⟩ := changeSign b.avg_latency_ms c.avg_latency_ms hb
    obtain ⟨p2, n2, z2⟩ := changeSign c.avg_latency_ms b.avg_latency_ms hc
    simp only [latencyChange, hb, hc, if_true]
    exact ⟨p1.trans n2.symm, n1.trans p2.symm,
      z1.trans (eq_comm.trans z2.symm)⟩

/-- C7 witness: sign antisymmetry at a concrete pair of positive-metric
records (baseline tps 166.67 and latency 5, candidate tps 200 and
latency 4). -/
theorem C7_swap_sign_antisymmetry_witness :
    ((0 < tpsChange bEx cEx ↔ tpsChange cEx bEx < 0) ∧
     (tpsChange bEx cEx < 0 ↔ 0 < tpsChange cEx bEx) ∧
     (tpsChange bEx cEx = 0 ↔ tpsChange cEx bEx = 0)) ∧
    ((0 < latencyChange bEx cEx ↔ latencyChange cEx bEx < 0) ∧
     (latencyChange bEx cEx < 0 ↔ 0 < latencyChange cEx bEx) ∧
     (latencyChange bEx cEx = 0 ↔ latencyChange cEx bEx = 0)) :=
  ⟨(C7_swap_sign_antisymmetry bEx cEx).1 (by norm_num [bEx]) (by norm_num [cEx, bEx]),
   (C7_swap_sign_antisymmetry bEx cEx).2 (by norm_num [bEx]) (by norm_num [cEx, bEx])⟩

/-- C4: the burst analysis contains the high-tail-latency recommendation
exactly when `p99_latency_ms > 100`; the emitted recommendation has
category performance, parameter work_mem, confidence medium, no restart,
and a single evidence line citing the measured p99; a report with
`p99 = 100` yields no recommendation and one with `p99 = 100.0001`
yields exactly the work_mem recommendation. -/
theorem C4_high_tail_latency_rule (path : String) (data : RawReport) :
    (workMemRec (parse_workload_report data).p99_latency_ms ∈
        (analyzeBurstData path data).recommendations ↔
      100 < (parse_workload_report data).p99_latency_ms) ∧
    (workMemRec (parse_workload_report data).p99_latency_ms).category = "performance" ∧
    (workMemRec (parse_workload_report data).p99_latency_ms).parameter = "work_mem" ∧
    (workMemRec (parse_workload_report data).p99_latency_ms).confidence = "medium" ∧
    (workMemRec (parse_workload_report data).p99_latency_ms).restart_required = false ∧
    (workMemRec (parse_workload_report data).p99_latency_ms).evidence =
      [p99Evidence (parse_workload_report data).p99_latency_ms] ∧
    (workMemRec (parse_workload_report data).p99_latency_ms).evidence.length = 1 ∧
    (analyzeBurstData path (p99Report 100)).recommendations = [] ∧
    (analyzeBurstData path (p99Report (1000001/10000))).recommendations =
      [workMemRec (1000001/10000)] := by
  refine ⟨?_, rfl, rfl, rfl, rfl, rfl, rfl, ?_, ?_⟩
  · rw [analyzeBurstData_recs]
    constructor
    · intro h
      rcases List.mem_append.mp h with h1 | h2
      · by_cases hc : 100 < (parse_workload_report data).p99_latency_ms
        · exact hc
        · simp [hc] at h1
      · exfalso
        by_cases he : 0 < (parse_workload_report data).errors
        · by_cases hr : 1 < errorRate (parse_workload_report data).errors
              (parse_workload_report data).total_transactions
          · rw [if_pos he, if_pos hr, List.mem_singleton] at h2
            exact workMemRec_ne_maxConnectionsRec _ _ h2
          · simp [he, hr] at h2
        · simp [he] at h2
    · intro h
      exact List.mem_append.mpr (Or.inl (by simp [h]))
  · norm_num [analyzeBurstData_recs, parse_workload_report, p99Report, noFields]
  · norm_num [analyzeBurstData_recs, parse_workload_report, p99Report, noFields]

/-- C5: the burst analysis contains a max_connections recommendation
exactly when `errors > 0` and `errors / max(total_transactions, 1) * 100`
exceeds 1 (so `errors = 0` never triggers it, whatever the transaction
count); the emitted recommendation has category connections, confidence
low, requires a restart, and a single evidence line citing the computed
error-rate percentage. -/
theorem C5_elevated_error_rate_rule (path : String) (data : RawReport) :
    ((∃ r ∈ (analyzeBurstData path data).recommendations,
        r.parameter = "max_connections") ↔
      (0 < (parse_workload_report data).errors ∧
       1 < errorRate (parse_workload_report data).errors
             (parse_workload_report data).total_transactions)) ∧
    (maxConnectionsRec (errorRate (parse_workload_report data).errors
        (parse_workload_report data).total_transactions)).category = "connections" ∧
    (maxConnectionsRec (errorRate (parse_workload_report data).errors
        (parse_workload_report data).total_transactions)).parameter = "max_connections" ∧
    (maxConnectionsRec (errorRate (parse_workload_report data).errors
        (parse_workload_report data).total_transactions)).confidence = "low" ∧
    (maxConnectionsRec (errorRate (parse_workload_report data).errors
        (parse_workload_report data).total_transactions)).restart_required = true ∧
    (maxConnectionsRec (errorRate (parse_workload_report data).errors
        (parse_workload_report data).total_transactions)).evidence =
      [errEvidence (errorRate (parse_workload_report data).errors
        (parse_workload_report data).total_transactions)] ∧
    (maxConnectionsRec (errorRate (parse_workload_report data).errors
        (parse_workload_report data).total_transactions)).evidence.length = 1 := by
  refine ⟨?_, rfl, rfl, rfl, rfl, rfl, rfl⟩
  rw [analyzeBurstData_recs]
  constructor
  · rintro ⟨r, hr, hp⟩
    rcases List.mem_append.mp hr with h1 | h2
    · exfalso
      by_cases hc : 100 < (parse_workload_report data).p99_latency_ms
      · rw [if_pos hc, List.mem_singleton] at h1
        subst h1
        simp [workMemRec] at hp
      · simp [hc] at h1
    · by_cases he : 0 < (parse_workload_report data).errors
      · by_cases hrate : 1 < errorRate (parse_workload_report data).errors
            (parse_workload_report data).total_transactions
        · exact ⟨he, hrate⟩
        · simp [he, hrate] at h2
      · simp [he] at h2
  · rintro ⟨he, hrate⟩
    exact ⟨maxConnectionsRec (errorRate (parse_workload_report data).errors
        (parse_workload_report data).total_transactions),
      List.mem_append.mpr (Or.inr (by simp [he, hrate])), rfl⟩

/-- C8: each analysis or comparison operation fails as a whole exactly
when a required report path is missing or its content is not valid JSON,
and otherwise returns the fully populated result; for the comparison both
the baseline and the comparison file must exist and decode. -/
theorem C8_failure_atomicity (fs : FileSystem) (p bp cp tp : String)
    (tln : Option ℕ) :
    (∀ d, fs p = .json d →
      analyze_burst_report_impl fs p = .ok (analyzeBurstData p d)) ∧
    ((∃ e, analyze_burst_report_impl fs p = .error e) ↔
      fs p = .missing ∨ fs p = .invalidJson) ∧
    (∀ d, fs p = .json d →
      analyze_simulation_report fs p (some tp) tln =
        .ok (analyzeSimulationData p (some tp) tln d)) ∧
    ((∃ e, analyze_simulation_report fs p (some tp) tln = .error e) ↔
      fs p = .missing ∨ fs p = .invalidJson) ∧
    ((∃ r, compare_reports_impl fs bp cp = .ok r) ↔
      (∃ bd, fs bp = .json bd) ∧ (∃ cd, fs cp = .json cd)) ∧
    ((∃ e, compare_reports_impl fs bp cp = .error e) ↔
      ¬ ((∃ bd, fs bp = .json bd) ∧ (∃ cd, fs cp = .json cd))) := by
  refine ⟨?_, ?_, ?_, ?_, ?_, ?_⟩
  · intro d h
    unfold analyze_burst_report_impl
    rw [h]
  · cases h : fs p <;> simp [analyze_burst_report_impl, h]
  · intro d h
    unfold analyze_simulation_report
    rw [h]
  · cases h : fs p <;> simp [analyze_simulation_report, h]
  · cases h1 : fs bp <;> cases h2 : fs cp <;>
      simp [compare_reports_impl, h1, h2]
  · cases h1 : fs bp <;> cases h2 : fs cp <;>
      simp [compare_reports_impl, h1, h2]

/-- C8 witness: a decodable report analyzes to the full result; a missing
path makes the call fail. -/
theorem C8_failure_atomicity_witness :
    analyze_burst_report_impl fsGood "report.json" =
      .ok (analyzeBurstData "report.json" dEx) ∧
    (∃ e, analyze_burst_report_impl fsMissing "report.json" = .error e) :=
  ⟨(C8_failure_atomicity fsGood "report.json" "b" "c" "t" none).1 dEx rfl,
   ((C8_failure_atomicity fsMissing "report.json" "b" "c" "t" none).2.1).mpr
     (Or.inl rfl)⟩

/-- The spike detector returns no recommendation or exactly the
checkpoint one. -/
lemma spikeRecs_cases (tl : Option (List (Option ℚ))) :
    spikeRecs tl = [] ∨ ∃ m a, spikeRecs tl = [checkpointRec m a] := by
  unfold spikeRecs
  rcases tl with _ | td
  · exact Or.inl rfl
  · dsimp only
    split
    · split
      · exact Or.inl rfl
      · split
        · exact Or.inr ⟨_, _, rfl⟩
        · exact Or.inl rfl
    · exact Or.inl rfl

/-- C9: the simulation analysis emits at most one recommendation, and any
emitted recommendation tunes checkpoint_completion_target — never
work_mem and never max_connections, whatever the report's metrics. -/
theorem C9_simulation_only_checkpoint_rule (path : String)
    (tlp : Option String) (tln : Option ℕ) (data : RawReport) :
    (analyzeSimulationData path tlp tln data).recommendations.length ≤ 1 ∧
    ∀ r ∈ (analyzeSimulationData path tlp tln data).recommendations,
      r.parameter = "checkpoint_completion_target" ∧
      r.parameter ≠ "work_mem" ∧ r.parameter ≠ "max_connections" := by
  have h : (analyzeSimulationData path tlp tln data).recommendations =
      spikeRecs data.timeline := rfl
  rw [h]
  rcases spikeRecs_cases data.timeline with hc | ⟨m, a, hc⟩ <;> rw [hc]
  · simp
  · refine ⟨by norm_num, ?_⟩
    intro r hr
    rw [List.mem_singleton] at hr
    subst hr
    refine ⟨rfl, by simp [checkpointRec], by simp [checkpointRec]⟩

/-- C9 witness: a spiking timeline (values 10, 10, 10, 300) emits exactly
one recommendation, and it tunes checkpoint_completion_target. -/
theorem C9_simulation_only_checkpoint_rule_witness :
    ((analyzeSimulationData "sim.json" none none c9Data).recommendations.length ≤ 1 ∧
     ∀ r ∈ (analyzeSimulationData "sim.json" none none c9Data).recommendations,
       r.parameter = "checkpoint_completion_target" ∧
       r.parameter ≠ "work_mem" ∧ r.parameter ≠ "max_connections") ∧
    (analyzeSimulationData "sim.json" none none c9Data).recommendations.length = 1 :=
  ⟨C9_simulation_only_checkpoint_rule "sim.json" none none c9Data,
   by norm_num [analyzeSimulationData, spikeRecs, c9Data, listMax, List.filterMap,
     List.cons_ne_nil]⟩

end PgTuner
